import Mathlib

/-!
Shallow embedding of the or_rviz marker-synchronization code
(`src/src/LinkMarker.cpp`, `src/unnamed/part_000` = `JointMarker.cpp`,
`src/src/SuperViewer.cpp`) together with theorems settling the frozen
claims about it.

Scalars of the C++ (`double` / `OpenRAVE::dReal`) are modelled as `Rat`;
none of the claims depends on floating-point rounding.  External
collaborators (the OpenRAVE geometry library and the pose-conversion
helpers `toROSPose` / `toORPose`, which the spec describes as exact,
lossless, mutually inverse pure functions) enter the model as opaque
function parameters bundled in `Ext`; service calls carry the
pre-conversion transform, which is faithful because the conversion is a
pure bijection applied at the boundary.
-/

set_option autoImplicit false

namespace OrRviz

/-- Position vector (`OpenRAVE::Vector` xyz part, `geometry_msgs` vector). -/
structure Vec3 where
  x : Rat
  y : Rat
  z : Rat
deriving DecidableEq

/-- Unit quaternion (`OpenRAVE::Transform::rot`). -/
structure Quat where
  w : Rat
  x : Rat
  y : Rat
  z : Rat
deriving DecidableEq

/-- Rigid transform (`OpenRAVE::Transform`): rotation plus translation. -/
structure Transform where
  rot : Quat
  trans : Vec3
deriving DecidableEq

/-- RGBA color (`std_msgs::ColorRGBA`). -/
structure ColorRGBA where
  r : Rat
  g : Rat
  b : Rat
  a : Rat
deriving DecidableEq

/-- `LinkMarker::kGhostColor = OpenRAVE::Vector(0, 1, 0, 0.2)`. -/
def kGhostColor : ColorRGBA :=
  { r := 0, g := 1, b := 0, a := 1/5 }

/-- `kWorldFrameId` / `kDefaultWorldFrameId` (the hardcoded world frame). -/
def kDefaultWorldFrameId : String := "/world"

/-- `OpenRAVE::GeometryType`; `GT_Unknown` stands for any value hitting the
`default:` branch of the switches in the source. -/
inductive GeometryType
  | GT_None
  | GT_Box
  | GT_Sphere
  | GT_Cylinder
  | GT_TriMesh
  | GT_Unknown
deriving DecidableEq

/-- One link geometry element (`OpenRAVE::KinBody::Link::Geometry`).
`gid` models the C++ pointer identity used as the key of
`geometry_markers_`.  `aabbNanX` models whether the externally computed
`ComputeAABB(...)` has a NaN x extent (`isnan(aabb.extents.x)` in
`SuperViewer::EnvironmentSync`). -/
structure Geometry where
  gid : Nat
  isVisible : Bool
  gtype : GeometryType
  renderFilename : String
  renderScale : Vec3
  transform : Transform
  diffuseColor : Vec3
  transparency : Rat
  boxExtents : Vec3
  sphereRadius : Rat
  cylinderRadius : Rat
  cylinderHeight : Rat
  aabbNanX : Bool
  aabbExtents : Vec3
deriving DecidableEq

/-- One kinematic link (`OpenRAVE::KinBody::Link`): world transform and
geometry list, plus the identifiers used to build marker names. -/
structure Link where
  envId : Int
  bodyName : String
  name : String
  transform : Transform
  geometries : List Geometry
deriving DecidableEq

/-- One kinematic body (`OpenRAVE::KinBody`), as walked by `SuperViewer`. -/
structure Body where
  name : String
  links : List Link
deriving DecidableEq

/-- `visualization_msgs::Marker::type` values produced by the source. -/
inductive MarkerType
  | MESH_RESOURCE
  | CUBE
  | SPHERE
  | CYLINDER
deriving DecidableEq

/-- One render primitive (`visualization_msgs::Marker`), restricted to the
fields the source writes. -/
structure Marker where
  mtype : MarkerType
  pose : Transform
  scale : Vec3
  color : ColorRGBA
  meshResource : String
  meshUseEmbeddedMaterials : Bool
deriving DecidableEq

/-- Errors a sync can hit at runtime: dereferencing the null result of
`weak_ptr::lock()`, or `std::vector::at` out of range. -/
inductive RuntimeError
  | nullDeref
  | outOfRange
deriving DecidableEq

/-- A call made to the remote `InteractiveMarkerServer`. -/
inductive ServiceCall
  | insert (name : String)
  | setPose (name : String) (pose : Transform)
  | erase (name : String)
  | setCallback (name : String)
deriving DecidableEq

/-- External mathematics this repository calls but does not define:
OpenRAVE quaternion/transform operations.  `relRot base p` stands for
`(base.inverse() * toORPose(p)).rot` and `axisAngleZ` for
`axisAngleFromQuat(...)[2]`; `compose` is `Transform` multiplication.
Modelled from the spec: the pose conversions (`or_conversions`, repository
code not present under src/) are exact lossless pure bijections, so they
are absorbed into these parameters. -/
structure Ext where
  transformLookat : Vec3 → Vec3 → Vec3 → Quat
  axisAngleZ : Quat → Rat
  relRot : Transform → Transform → Quat
  compose : Transform → Transform → Transform

/-- `geometry_markers_`: map from geometry identity to the primitive it
produced (`some m`) or the NULL sentinel (`none`), or absent altogether. -/
abbrev GeometryMap := List (Nat × Option Marker)

/-- `geometry_markers_.find(geometry.get())`: `none` when the key is absent
(`it == geometry_markers_.end()`), otherwise the stored value. -/
def GeometryMap.find (k : Nat) : GeometryMap → Option (Option Marker)
  | [] => none
  | e :: rest => if k = e.1 then some e.2 else GeometryMap.find k rest

/-- `RenderMode::Type` (visual vs. collision geometry selection). -/
inductive RenderMode
  | kVisual
  | kCollision
deriving DecidableEq

/-- State of a `LinkMarker`: the weak link reference (`none` once expired),
the ghost flag, the stored render mode, the marker name
(`interactive_marker_->name`), the primitives attached to the single
visual control (`visual_control_->markers`) and `geometry_markers_`. -/
structure LinkMarkerState where
  link : Option Link
  isGhost : Bool
  renderMode : RenderMode
  markerName : String
  markers : List Marker
  geometryMarkers : GeometryMap
deriving DecidableEq

/-- `LinkMarker::id()`. -/
def LinkMarker.linkId (link : Link) : String :=
  "Environment[" ++ toString link.envId ++ "].KinBody[" ++ link.bodyName ++
    "].Link[" ++ link.name ++ "]"

/-- The `render_mesh_path` computed at the top of
`LinkMarker::CreateGeometry(GeometryPtr)`: the geometry's render filename,
blanked when it starts with the `__norenderif__` sentinel. -/
def renderMeshPath (geom : Geometry) : String :=
  if geom.renderFilename.startsWith "__norenderif__" then ""
  else geom.renderFilename

/-- The marker color set at the top of
`LinkMarker::CreateGeometry(GeometryPtr)`: the fixed ghost color for ghost
copies, otherwise the diffuse color with alpha `1 - transparency`. -/
def LinkMarker.markerColor (isGhost : Bool) (geom : Geometry) : ColorRGBA :=
  if isGhost then kGhostColor
  else
    { r := geom.diffuseColor.x
      g := geom.diffuseColor.y
      b := geom.diffuseColor.z
      a := 1 - geom.transparency }

/-- `LinkMarker::CreateGeometry(GeometryPtr)`: convert one geometry element
to a render primitive, or `none` (the C++ returns a null `MarkerPtr`) when
it has no renderable content. -/
def LinkMarker.CreateGeometryOne (isGhost : Bool) (geom : Geometry) : Option Marker :=
  if renderMeshPath geom ≠ "" then
    some
      { mtype := MarkerType.MESH_RESOURCE
        pose := geom.transform
        scale := geom.renderScale
        color := LinkMarker.markerColor isGhost geom
        meshResource := "file://" ++ renderMeshPath geom
        meshUseEmbeddedMaterials := !isGhost }
  else
    match geom.gtype with
    | GeometryType.GT_None => none
    | GeometryType.GT_Box =>
        some
          { mtype := MarkerType.CUBE
            pose := geom.transform
            scale := geom.boxExtents
            color := LinkMarker.markerColor isGhost geom
            meshResource := ""
            meshUseEmbeddedMaterials := false }
    | GeometryType.GT_Sphere =>
        some
          { mtype := MarkerType.SPHERE
            pose := geom.transform
            scale := { x := geom.sphereRadius, y := geom.sphereRadius, z := geom.sphereRadius }
            color := LinkMarker.markerColor isGhost geom
            meshResource := ""
            meshUseEmbeddedMaterials := false }
    | GeometryType.GT_Cylinder =>
        some
          { mtype := MarkerType.CYLINDER
            pose := geom.transform
            scale := { x := geom.cylinderRadius, y := geom.cylinderRadius, z := geom.cylinderHeight }
            color := LinkMarker.markerColor isGhost geom
            meshResource := ""
            meshUseEmbeddedMaterials := false }
    | GeometryType.GT_TriMesh => none
    | GeometryType.GT_Unknown => none

/-- One iteration of the loop body of `LinkMarker::CreateGeometry()`:
invisible geometries are skipped by the `continue`; a visible geometry
whose conversion is empty gets the NULL sentinel entry; otherwise the
primitive is pushed and mapped.  `acc` is what the remaining iterations
contribute. -/
def LinkMarker.createStep (isGhost : Bool) (geom : Geometry)
    (acc : List Marker × GeometryMap) : List Marker × GeometryMap :=
  if geom.isVisible then
    match LinkMarker.CreateGeometryOne isGhost geom with
    | some m => (m :: acc.1, (geom.gid, some m) :: acc.2)
    | none => (acc.1, (geom.gid, none) :: acc.2)
  else acc

/-- `LinkMarker::CreateGeometry()`: rebuild the primitive list and the
geometry map from scratch, walking the link's geometries in order. -/
def LinkMarker.CreateGeometry (isGhost : Bool) :
    List Geometry → List Marker × GeometryMap
  | [] => ([], [])
  | geom :: rest =>
      LinkMarker.createStep isGhost geom (LinkMarker.CreateGeometry isGhost rest)

/-- The change-detection loop of `LinkMarker::EnvironmentSync`:
`is_changed = is_changed || (is_visible == is_missing)` with a `break`
as soon as `is_changed` holds. -/
def LinkMarker.detectChanged (gm : GeometryMap) : List Geometry → Bool
  | [] => false
  | geom :: rest =>
    if geom.isVisible == (GeometryMap.find geom.gid gm).isNone then true
    else LinkMarker.detectChanged gm rest

/-- `LinkMarker::EnvironmentSync`.  `this->link()` (`link_.lock()`) is
dereferenced with no liveness check, so an expired weak reference is a
null dereference.  A detected change triggers `CreateGeometry()` followed
by `server_->insert`; otherwise only `server_->setPose` is issued with the
link's current transform. -/
def LinkMarker.EnvironmentSync (s : LinkMarkerState) :
    Except RuntimeError (LinkMarkerState × List ServiceCall) :=
  match s.link with
  | none => Except.error RuntimeError.nullDeref
  | some link =>
    if LinkMarker.detectChanged s.geometryMarkers link.geometries then
      Except.ok
        ({ s with
             markers := (LinkMarker.CreateGeometry s.isGhost link.geometries).1
             geometryMarkers := (LinkMarker.CreateGeometry s.isGhost link.geometries).2 },
         [ServiceCall.insert s.markerName])
    else
      Except.ok (s, [ServiceCall.setPose s.markerName link.transform])

/-- `LinkMarker::SetRenderMode`: stores the mode and nothing else. -/
def LinkMarker.SetRenderMode (s : LinkMarkerState) (mode : RenderMode) :
    LinkMarkerState :=
  { s with renderMode := mode }

/-- `OpenRAVE::KinBody::JointType`, as far as the source distinguishes it:
`JointRevolute` against everything else. -/
inductive JointType
  | JointRevolute
  | JointPrismatic
  | JointSpherical
  | JointUniversal
deriving DecidableEq

/-- One kinematic joint (`OpenRAVE::KinBody::Joint`): the flags the
constructor tests, the current value `GetValue(0)`, and axis/anchor. -/
structure Joint where
  envId : Int
  bodyName : String
  name : String
  jtype : JointType
  isStatic : Bool
  isMimic : Bool
  value : Rat
  axis : Vec3
  anchor : Vec3
deriving DecidableEq

/-- State of a `JointMarker`.  `markerName` is `marker_.name` (left at its
default empty value when the constructor returns early on an inert
joint). -/
structure JointMarkerState where
  joint : Option Joint
  jointPose : Transform
  jointInitial : Rat
  jointDelta : Rat
  created : Bool
  forceUpdate : Bool
  active : Bool
  markerName : String
  markerFrameId : String
deriving DecidableEq

/-- `JointMarker::id()`. -/
def JointMarker.jointId (joint : Joint) : String :=
  "Environment[" ++ toString joint.envId ++ "].KinBody[" ++ joint.bodyName ++
    "].Joint[" ++ joint.name ++ "]"

/-- `JointMarker::GetJointPose`: orientation from the external
`transformLookat(Vector(0,0,0), joint->GetAxis(), Vector(1,0,0))`, with
the translation overwritten by the joint's anchor. -/
def JointMarker.GetJointPose (ext : Ext) (joint : Joint) : Transform :=
  { rot := ext.transformLookat { x := 0, y := 0, z := 0 } joint.axis { x := 1, y := 0, z := 0 }
    trans := joint.anchor }

/-- `JointMarker::JointMarker`: initializes all fields, then returns early
(performing no service call) when the joint is not revolute, is static, or
is mimic; otherwise configures `marker_` and registers it with the server
together with the feedback callback. -/
def JointMarker.construct (ext : Ext) (joint : Joint) :
    JointMarkerState × List ServiceCall :=
  let base : JointMarkerState :=
    { joint := some joint
      jointPose := JointMarker.GetJointPose ext joint
      jointInitial := joint.value
      jointDelta := 0
      created := false
      forceUpdate := true
      active := false
      markerName := ""
      markerFrameId := "" }
  if joint.jtype ≠ JointType.JointRevolute then (base, [])
  else if joint.isStatic then (base, [])
  else if joint.isMimic then (base, [])
  else
    ({ base with
         markerName := JointMarker.jointId joint
         markerFrameId := kDefaultWorldFrameId },
     [ServiceCall.insert (JointMarker.jointId joint),
      ServiceCall.setCallback (JointMarker.jointId joint)])

/-- `JointMarker::pose()`. -/
def JointMarker.pose (s : JointMarkerState) : Transform :=
  s.jointPose

/-- `JointMarker::set_pose`: updates `joint_pose_` only when no drag is in
progress. -/
def JointMarker.set_pose (s : JointMarkerState) (p : Transform) : JointMarkerState :=
  if !s.active then { s with jointPose := p } else s

/-- `JointMarker::angle() = joint_initial_ + joint_delta_`. -/
def JointMarker.angle (s : JointMarkerState) : Rat :=
  s.jointInitial + s.jointDelta

/-- The service calls `JointMarker::EnvironmentSync` issues: the `insert`
when `force_update_` is still set, always followed by the `setPose` with
the current `pose()`. -/
def JointMarker.syncCalls (s : JointMarkerState) : List ServiceCall :=
  (if s.forceUpdate then [ServiceCall.insert s.markerName] else []) ++
    [ServiceCall.setPose s.markerName s.jointPose]

/-- `JointMarker::EnvironmentSync`: insert when `force_update_`, then
`setPose`; when no drag is in progress, `joint_initial_` is refreshed from
`joint()->GetValue(0)` — dereferencing the lock result with no liveness
check — and `joint_delta_` reset; `created_` is set and `false` returned.
(`force_update_` is false after either path of the source's conditional,
so it is written unconditionally here.) -/
def JointMarker.EnvironmentSync (s : JointMarkerState) :
    Except RuntimeError (JointMarkerState × List ServiceCall × Bool) :=
  if s.active then
    Except.ok ({ s with forceUpdate := false, created := true },
      JointMarker.syncCalls s, false)
  else
    match s.joint with
    | none => Except.error RuntimeError.nullDeref
    | some j =>
        Except.ok
          ({ s with
               forceUpdate := false
               created := true
               jointInitial := j.value
               jointDelta := 0 },
           JointMarker.syncCalls s, false)

/-- The discrete feedback events of the interactive-marker service. -/
inductive FeedbackEvent
  | mouseDown
  | mouseUp
  | poseUpdate (pose : Transform)
deriving DecidableEq

/-- `JointMarker::JointCallback`: mouse down / up toggle `active_`;
a pose update recomputes `joint_delta_` from the handle pose relative to
`pose()` via the external axis-angle extraction, negated as in the
source. -/
def JointMarker.JointCallback (ext : Ext) (s : JointMarkerState)
    (feedback : FeedbackEvent) : JointMarkerState :=
  match feedback with
  | FeedbackEvent.mouseDown => { s with active := true }
  | FeedbackEvent.mouseUp => { s with active := false }
  | FeedbackEvent.poseUpdate p =>
      { s with jointDelta := -(ext.axisAngleZ (ext.relRot (JointMarker.pose s) p)) }

/-- The operations that can hit a `JointMarker` between ticks: a sync tick,
an external `set_pose`, or an asynchronous feedback delivery. -/
inductive JMEvent
  | sync
  | setPoseEv (pose : Transform)
  | feedbackEv (feedback : FeedbackEvent)
deriving DecidableEq

/-- One step of a `JointMarker` trace; `none` when the sync crashes. -/
def JointMarker.step (ext : Ext) (s : JointMarkerState) :
    JMEvent → Option JointMarkerState
  | JMEvent.sync =>
      match JointMarker.EnvironmentSync s with
      | Except.ok r => some r.1
      | Except.error _ => none
  | JMEvent.setPoseEv p => some (JointMarker.set_pose s p)
  | JMEvent.feedbackEv f => some (JointMarker.JointCallback ext s f)

/-- Run a list of events from a state. -/
def JointMarker.run (ext : Ext) (s : JointMarkerState) :
    List JMEvent → Option JointMarkerState
  | [] => some s
  | e :: rest =>
    match JointMarker.step ext s e with
    | none => none
    | some s1 => JointMarker.run ext s1 rest

/-- The marker message `SuperViewer::EnvironmentSync` builds for one
geometry: world frame, diffuse RGB with alpha 1, AABB extents as scale,
the composed link∘geometry transform as pose, and type CUBE. -/
def SuperViewer.makeMarkerMsg (ext : Ext) (link : Link) (geom : Geometry) : Marker :=
  { mtype := MarkerType.CUBE
    pose := ext.compose link.transform geom.transform
    scale := geom.aabbExtents
    color := { r := geom.diffuseColor.x, g := geom.diffuseColor.y, b := geom.diffuseColor.z, a := 1 }
    meshResource := ""
    meshUseEmbeddedMaterials := false }

/-- The geometry loop of `SuperViewer::EnvironmentSync`: geometries with a
NaN AABB are skipped by the `continue`; the first remaining geometry is
emitted and the unconditional `break` then ends the loop. -/
def SuperViewer.firstGeomMarker (ext : Ext) (link : Link) :
    List Geometry → List Marker
  | [] => []
  | geom :: rest =>
    if geom.aabbNanX then SuperViewer.firstGeomMarker ext link rest
    else [SuperViewer.makeMarkerMsg ext link geom]

/-- The link loop of `SuperViewer::EnvironmentSync`: when the body has any
link, the loop reads `links.at(i)` — indexed by the enclosing body index
`i`, not the link index `j` — and the trailing `break` ends the loop after
one iteration. -/
def SuperViewer.syncLinksAt (ext : Ext) (i : Nat) (links : List Link) :
    Except RuntimeError (List Marker) :=
  match links with
  | [] => Except.ok []
  | _ :: _ =>
    match links.get? i with
    | none => Except.error RuntimeError.outOfRange
    | some link => Except.ok (SuperViewer.firstGeomMarker ext link link.geometries)

/-- `SuperViewer::EnvironmentSync`: the body loop runs its first iteration
(`i = 0`) and the trailing `break` ends it. -/
def SuperViewer.EnvironmentSync (ext : Ext) (bodies : List Body) :
    Except RuntimeError (List Marker) :=
  match bodies with
  | [] => Except.ok []
  | body :: _ => SuperViewer.syncLinksAt ext 0 body.links

/-- Total number of geometry elements in an environment, for comparison
with how many the viewer actually processes. -/
def totalGeometryCount (bodies : List Body) : Nat :=
  (bodies.map (fun body =>
    (body.links.map (fun link => link.geometries.length)).sum)).sum

/-- Visibility toggle of one geometry element. -/
def toggleVis (geom : Geometry) : Geometry :=
  { geom with isVisible := !geom.isVisible }

/-- The claim-level notion of "non-empty renderable content": an effective
render-mesh path, or a box/sphere/cylinder kind. -/
def hasRenderableContent (geom : Geometry) : Bool :=
  if renderMeshPath geom ≠ "" then true
  else
    match geom.gtype with
    | GeometryType.GT_Box => true
    | GeometryType.GT_Sphere => true
    | GeometryType.GT_Cylinder => true
    | _ => false

/-! Concrete fixtures used by witnesses and counterexamples. -/

/-- Identity transform. -/
def idT : Transform :=
  { rot := { w := 1, x := 0, y := 0, z := 0 }, trans := { x := 0, y := 0, z := 0 } }

/-- A concrete instantiation of the external math parameters, used only to
evaluate the model on closed inputs. -/
def extC : Ext :=
  { transformLookat := fun _ _ _ => { w := 1, x := 0, y := 0, z := 0 }
    axisAngleZ := fun _ => 0
    relRot := fun _ _ => { w := 1, x := 0, y := 0, z := 0 }
    compose := fun t _ => t }

/-- A visible box geometry. -/
def geomBoxC : Geometry :=
  { gid := 0
    isVisible := true
    gtype := GeometryType.GT_Box
    renderFilename := ""
    renderScale := { x := 1, y := 1, z := 1 }
    transform := idT
    diffuseColor := { x := 1, y := 0, z := 0 }
    transparency := 0
    boxExtents := { x := 1, y := 2, z := 3 }
    sphereRadius := 0
    cylinderRadius := 0
    cylinderHeight := 0
    aabbNanX := false
    aabbExtents := { x := 1, y := 2, z := 3 } }

/-- A hidden (invisible) geometry. -/
def geomHiddenC : Geometry := { geomBoxC with gid := 1, isVisible := false }

/-- A link with one visible box geometry. -/
def linkC : Link :=
  { envId := 1, bodyName := "herb", name := "wam1", transform := idT, geometries := [geomBoxC] }

/-- A `LinkMarker` state for `linkC` whose map already matches the link. -/
def lmC : LinkMarkerState :=
  { link := some linkC
    isGhost := false
    renderMode := RenderMode.kVisual
    markerName := LinkMarker.linkId linkC
    markers := []
    geometryMarkers := [(0, none)] }

/-- A link with two visible box geometries. -/
def linkC3 : Link := { linkC with geometries := [geomBoxC, { geomBoxC with gid := 1 }] }

/-- `linkC3` with its first geometry's visibility toggled off. -/
def linkC3t : Link :=
  { linkC3 with geometries := [toggleVis geomBoxC, { geomBoxC with gid := 1 }] }

/-- A `LinkMarker` state for `linkC3` whose map already matches the link. -/
def lmC3 : LinkMarkerState :=
  { lmC with link := some linkC3, geometryMarkers := [(0, none), (1, none)] }

/-- `lmC3` after the link's first geometry was hidden. -/
def lmC3t : LinkMarkerState := { lmC3 with link := some linkC3t }

/-- A `LinkMarker` state whose weak link reference has expired. -/
def lmExpiredC : LinkMarkerState := { lmC with link := none }

/-- A live revolute, non-static, non-mimic joint. -/
def jointC : Joint :=
  { envId := 1, bodyName := "herb", name := "j1"
    jtype := JointType.JointRevolute
    isStatic := false
    isMimic := false
    value := 2
    axis := { x := 0, y := 0, z := 1 }
    anchor := { x := 0, y := 0, z := 0 } }

/-- A static revolute joint: the constructor treats it as inert. -/
def jointStaticC : Joint := { jointC with isStatic := true }

/-- The `JointMarker` state right after construction on `jointC`. -/
def jmIdleC : JointMarkerState := (JointMarker.construct extC jointC).1

/-- The state `jmIdleC` reaches after its first `EnvironmentSync`. -/
def jmIdleC1 : JointMarkerState :=
  { jmIdleC with
      forceUpdate := false
      created := true
      jointInitial := jointC.value
      jointDelta := 0 }

/-- The service calls of `jmIdleC`'s first `EnvironmentSync`. -/
def jmIdleCalls : List ServiceCall :=
  [ServiceCall.insert jmIdleC.markerName,
   ServiceCall.setPose jmIdleC.markerName jmIdleC.jointPose]

/-- A `JointMarker` state whose weak joint reference has expired. -/
def jmExpiredC : JointMarkerState := { jmIdleC with joint := none }

/-- A `JointMarker` state in the middle of a drag. -/
def jmActiveC : JointMarkerState := { jmIdleC with active := true }

/-- An arbitrary concrete pose. -/
def pC : Transform :=
  { rot := { w := 0, x := 0, y := 1, z := 0 }, trans := { x := 1, y := 2, z := 3 } }

/-- A drag-interval event trace: one sync tick, one external `set_pose`,
one pose-update feedback — and no mouse-up. -/
def evsC : List JMEvent :=
  [JMEvent.sync, JMEvent.setPoseEv pC, JMEvent.feedbackEv (FeedbackEvent.poseUpdate pC)]

/-- Links and bodies for the `SuperViewer` environment: two bodies with two
links each, every link carrying two visible geometries. -/
def linkC9a : Link := { linkC with name := "l0", geometries := [geomBoxC, { geomBoxC with gid := 1 }] }

/-- Second link of the first body. -/
def linkC9b : Link :=
  { linkC with name := "l1", geometries := [{ geomBoxC with gid := 2 }, { geomBoxC with gid := 3 }] }

/-- First link of the second body. -/
def linkC9c : Link :=
  { linkC with name := "l2", geometries := [{ geomBoxC with gid := 4 }, { geomBoxC with gid := 5 }] }

/-- Second link of the second body. -/
def linkC9d : Link :=
  { linkC with name := "l3", geometries := [{ geomBoxC with gid := 6 }, { geomBoxC with gid := 7 }] }

/-- A two-body environment with eight geometries in total. -/
def bodiesC9 : List Body :=
  [{ name := "b0", links := [linkC9a, linkC9b] },
   { name := "b1", links := [linkC9c, linkC9d] }]

/-! Helper lemmas about `LinkMarker.CreateGeometry` and the
change-detection scan. -/

/-- Unfolding lemma for `CreateGeometry` on a cons cell. -/
theorem createGeometry_cons (b : Bool) (g : Geometry) (rest : List Geometry) :
    LinkMarker.CreateGeometry b (g :: rest) =
      LinkMarker.createStep b g (LinkMarker.CreateGeometry b rest) := rfl

/-- `createStep` for an invisible geometry. -/
theorem createStep_invisible (b : Bool) (g : Geometry) (acc : List Marker × GeometryMap)
    (hv : g.isVisible = false) : LinkMarker.createStep b g acc = acc := by
  unfold LinkMarker.createStep
  rw [hv]
  simp

/-- `createStep` for a visible geometry with renderable content. -/
theorem createStep_visible_some (b : Bool) (g : Geometry) (acc : List Marker × GeometryMap)
    (m : Marker) (hv : g.isVisible = true) (hm : LinkMarker.CreateGeometryOne b g = some m) :
    LinkMarker.createStep b g acc = (m :: acc.1, (g.gid, some m) :: acc.2) := by
  unfold LinkMarker.createStep
  rw [hv, hm]
  rfl

/-- `createStep` for a visible geometry with no renderable content. -/
theorem createStep_visible_none (b : Bool) (g : Geometry) (acc : List Marker × GeometryMap)
    (hv : g.isVisible = true) (hm : LinkMarker.CreateGeometryOne b g = none) :
    LinkMarker.createStep b g acc = (acc.1, (g.gid, none) :: acc.2) := by
  unfold LinkMarker.createStep
  rw [hv, hm]
  rfl

/-- Unfolding lemma for the change-detection scan on a cons cell. -/
theorem detectChanged_cons (gm : GeometryMap) (g : Geometry) (rest : List Geometry) :
    LinkMarker.detectChanged gm (g :: rest) =
      if g.isVisible == (GeometryMap.find g.gid gm).isNone then true
      else LinkMarker.detectChanged gm rest := rfl

/-- Unfolding lemma for map lookup on a cons cell. -/
theorem geometryMap_find_cons (k : Nat) (e : Nat × Option Marker) (rest : GeometryMap) :
    GeometryMap.find k (e :: rest) =
      if k = e.1 then some e.2 else GeometryMap.find k rest := rfl

/-- `LinkMarker.EnvironmentSync` on a live link, reduced to its two
branches. -/
theorem environmentSync_some (s : LinkMarkerState) (L : Link) (hL : s.link = some L) :
    LinkMarker.EnvironmentSync s =
      if LinkMarker.detectChanged s.geometryMarkers L.geometries then
        Except.ok
          ({ s with
               markers := (LinkMarker.CreateGeometry s.isGhost L.geometries).1
               geometryMarkers := (LinkMarker.CreateGeometry s.isGhost L.geometries).2 },
           [ServiceCall.insert s.markerName])
      else Except.ok (s, [ServiceCall.setPose s.markerName L.transform]) := by
  unfold LinkMarker.EnvironmentSync
  rw [hL]

/-- `CreateGeometry` populates the map with exactly the visible geometries,
in order, each carrying its conversion result. -/
theorem createGeometry_snd_spec (b : Bool) (geoms : List Geometry) :
    (LinkMarker.CreateGeometry b geoms).2 =
      geoms.filterMap (fun geom =>
        if geom.isVisible then some (geom.gid, LinkMarker.CreateGeometryOne b geom)
        else none) := by
  induction geoms with
  | nil => rfl
  | cons g rest ih =>
    rw [createGeometry_cons]
    cases hv : g.isVisible with
    | false => rw [createStep_invisible b g _ hv]; simp [hv, ih]
    | true =>
      cases hm : LinkMarker.CreateGeometryOne b g with
      | none => rw [createStep_visible_none b g _ hv hm]; simp [hv, hm, ih]
      | some m => rw [createStep_visible_some b g _ m hv hm]; simp [hv, hm, ih]

/-- A key outside the geometry identities is absent from the rebuilt map. -/
theorem find_createGeometry_not_mem (b : Bool) (k : Nat) (geoms : List Geometry)
    (hk : k ∉ geoms.map Geometry.gid) :
    GeometryMap.find k (LinkMarker.CreateGeometry b geoms).2 = none := by
  induction geoms with
  | nil => rfl
  | cons g rest ih =>
    have hkg : ¬(k = g.gid) := fun h => hk (by simp [h])
    have hkr : k ∉ rest.map Geometry.gid := fun h => hk (by simp [h])
    rw [createGeometry_cons]
    cases hv : g.isVisible with
    | false => rw [createStep_invisible b g _ hv]; exact ih hkr
    | true =>
      cases hm : LinkMarker.CreateGeometryOne b g with
      | none =>
        rw [createStep_visible_none b g _ hv hm]
        simp [geometryMap_find_cons, hkg, ih hkr]
      | some m =>
        rw [createStep_visible_some b g _ m hv hm]
        simp [geometryMap_find_cons, hkg, ih hkr]

/-- Lookup in the rebuilt map, for a geometry of the link (with the
pointer-identity distinctness the C++ map relies on). -/
theorem find_createGeometry_mem (b : Bool) (geoms : List Geometry)
    (hnd : (geoms.map Geometry.gid).Nodup) (g : Geometry) (hg : g ∈ geoms) :
    GeometryMap.find g.gid (LinkMarker.CreateGeometry b geoms).2 =
      if g.isVisible then some (LinkMarker.CreateGeometryOne b g) else none := by
  induction geoms with
  | nil => cases hg
  | cons g0 rest ih =>
    rw [List.map_cons, List.nodup_cons] at hnd
    obtain ⟨h0, hndr⟩ := hnd
    rw [createGeometry_cons]
    rcases List.mem_cons.mp hg with hEq | hMem
    · subst hEq
      cases hv : g.isVisible with
      | true =>
        cases hm : LinkMarker.CreateGeometryOne b g with
        | none =>
          rw [createStep_visible_none b g _ hv hm]
          simp [hv, hm, geometryMap_find_cons]
        | some m =>
          rw [createStep_visible_some b g _ m hv hm]
          simp [hv, hm, geometryMap_find_cons]
      | false =>
        rw [createStep_invisible b g _ hv]
        simp [hv, find_createGeometry_not_mem b g.gid rest h0]
    · have hne : ¬(g.gid = g0.gid) :=
        fun h => h0 (h ▸ List.mem_map_of_mem Geometry.gid hMem)
      cases hv : g0.isVisible with
      | false => rw [createStep_invisible b g0 _ hv]; exact ih hndr hMem
      | true =>
        cases hm : LinkMarker.CreateGeometryOne b g0 with
        | none =>
          rw [createStep_visible_none b g0 _ hv hm]
          simp [geometryMap_find_cons, hne, ih hndr hMem]
        | some m =>
          rw [createStep_visible_some b g0 _ m hv hm]
          simp [geometryMap_find_cons, hne, ih hndr hMem]

/-- When every geometry's visibility agrees with its map membership, the
change-detection scan reports no change. -/
theorem detectChanged_eq_false (gm : GeometryMap) (geoms : List Geometry)
    (h : ∀ g ∈ geoms, (GeometryMap.find g.gid gm).isNone = !g.isVisible) :
    LinkMarker.detectChanged gm geoms = false := by
  induction geoms with
  | nil => rfl
  | cons g rest ih =>
    have hg := h g (List.mem_cons_self g rest)
    have hcond : (g.isVisible == (GeometryMap.find g.gid gm).isNone) = false := by
      rw [hg]; cases g.isVisible <;> rfl
    rw [detectChanged_cons]
    simp [hcond, ih (fun x hx => h x (List.mem_cons_of_mem g hx))]

/-- Conversely, a scan that reports no change certifies that every
geometry's visibility agrees with its map membership. -/
theorem forall_of_detectChanged_eq_false (gm : GeometryMap) (geoms : List Geometry)
    (h : LinkMarker.detectChanged gm geoms = false) :
    ∀ g ∈ geoms, (GeometryMap.find g.gid gm).isNone = !g.isVisible := by
  induction geoms with
  | nil => intro g hg; cases hg
  | cons g0 rest ih =>
    rw [detectChanged_cons] at h
    by_cases hc : (g0.isVisible == (GeometryMap.find g0.gid gm).isNone) = true
    · rw [if_pos hc] at h; cases h
    · rw [if_neg hc] at h
      have hc2 : (g0.isVisible == (GeometryMap.find g0.gid gm).isNone) = false :=
        Bool.eq_false_iff.mpr hc
      intro g hg
      rcases List.mem_cons.mp hg with hEq | hMem
      · subst hEq
        cases hvis : g.isVisible <;>
          cases hb : (GeometryMap.find g.gid gm).isNone <;> simp_all
      · exact ih h g hMem

/-- Toggling the visibility of the element at index `i` makes the
change-detection scan fire. -/
theorem detectChanged_set_toggle (gm : GeometryMap) :
    ∀ (geoms : List Geometry) (i : Nat) (hi : i < geoms.length),
      (∀ g ∈ geoms, (GeometryMap.find g.gid gm).isNone = !g.isVisible) →
      LinkMarker.detectChanged gm (geoms.set i (toggleVis (geoms.get ⟨i, hi⟩))) = true
  | [], i, hi, _ => absurd hi (Nat.not_lt_zero i)
  | g0 :: rest, 0, _, h => by
    have hg0 := h g0 (List.mem_cons_self g0 rest)
    show LinkMarker.detectChanged gm (toggleVis g0 :: rest) = true
    rw [detectChanged_cons]
    have hgid : (toggleVis g0).gid = g0.gid := rfl
    have hvis : (toggleVis g0).isVisible = !g0.isVisible := rfl
    rw [hgid, hvis, hg0]
    cases g0.isVisible <;> simp
  | g0 :: rest, j+1, hi, h => by
    have hg0 := h g0 (List.mem_cons_self g0 rest)
    have hcond : (g0.isVisible == (GeometryMap.find g0.gid gm).isNone) = false := by
      rw [hg0]; cases g0.isVisible <;> rfl
    show LinkMarker.detectChanged gm
        (g0 :: rest.set j (toggleVis (rest.get ⟨j, Nat.lt_of_succ_lt_succ hi⟩))) = true
    rw [detectChanged_cons]
    simp only [hcond]
    simp only [Bool.false_eq_true, if_false]
    exact detectChanged_set_toggle gm rest j (Nat.lt_of_succ_lt_succ hi)
      (fun x hx => h x (List.mem_cons_of_mem g0 hx))

/-- After a completed `EnvironmentSync` on a live link, the state's link is
unchanged and every geometry's visibility agrees with its map
membership. -/
theorem sync_establishes_invariant (s s1 : LinkMarkerState) (L : Link)
    (c : List ServiceCall)
    (hnd : (L.geometries.map Geometry.gid).Nodup)
    (hL : s.link = some L)
    (h1 : LinkMarker.EnvironmentSync s = Except.ok (s1, c)) :
    s1.link = some L ∧
      ∀ g ∈ L.geometries,
        (GeometryMap.find g.gid s1.geometryMarkers).isNone = !g.isVisible := by
  rw [environmentSync_some s L hL] at h1
  by_cases hdet : LinkMarker.detectChanged s.geometryMarkers L.geometries = true
  · rw [if_pos hdet] at h1
    simp only [Except.ok.injEq, Prod.mk.injEq] at h1
    obtain ⟨hs1, _⟩ := h1
    subst hs1
    refine ⟨hL, ?_⟩
    intro g hg
    rw [show ({ s with
          markers := (LinkMarker.CreateGeometry s.isGhost L.geometries).1
          geometryMarkers :=
            (LinkMarker.CreateGeometry s.isGhost L.geometries).2 } :
        LinkMarkerState).geometryMarkers =
        (LinkMarker.CreateGeometry s.isGhost L.geometries).2 from rfl]
    rw [find_createGeometry_mem s.isGhost L.geometries hnd g hg]
    cases g.isVisible <;> simp
  · rw [if_neg hdet] at h1
    simp only [Except.ok.injEq, Prod.mk.injEq] at h1
    obtain ⟨hs1, _⟩ := h1
    subst hs1
    have hdf : LinkMarker.detectChanged s.geometryMarkers L.geometries = false :=
      Bool.eq_false_iff.mpr hdet
    exact ⟨hL, forall_of_detectChanged_eq_false _ _ hdf⟩

/-- The primitive list rebuilt by `CreateGeometry` has one entry per
visible geometry with renderable content. -/
theorem createGeometryOne_isSome (b : Bool) (geom : Geometry) :
    (LinkMarker.CreateGeometryOne b geom).isSome = hasRenderableContent geom := by
  unfold LinkMarker.CreateGeometryOne hasRenderableContent
  by_cases hp : renderMeshPath geom ≠ ""
  · rw [if_pos hp, if_pos hp]
    rfl
  · rw [if_neg hp, if_neg hp]
    cases geom.gtype <;> rfl

/-- Length of the rebuilt primitive list. -/
theorem createGeometry_fst_length (b : Bool) (geoms : List Geometry) :
    (LinkMarker.CreateGeometry b geoms).1.length =
      (geoms.filter (fun geom => geom.isVisible && hasRenderableContent geom)).length := by
  induction geoms with
  | nil => rfl
  | cons g rest ih =>
    rw [createGeometry_cons, List.filter_cons]
    cases hv : g.isVisible with
    | false => rw [createStep_invisible b g _ hv]; simp [hv, ih]
    | true =>
      cases hm : LinkMarker.CreateGeometryOne b g with
      | none =>
        have hs2 : hasRenderableContent g = false := by
          rw [← createGeometryOne_isSome b g, hm]
          rfl
        rw [createStep_visible_none b g _ hv hm]
        simp [hv, hs2, ih]
      | some m =>
        have hs2 : hasRenderableContent g = true := by
          rw [← createGeometryOne_isSome b g, hm]
          rfl
        rw [createStep_visible_some b g _ m hv hm]
        simp [hv, hs2, ih]

/-! Helper lemmas about `JointMarker.EnvironmentSync` and traces. -/

/-- `JointMarker.EnvironmentSync` while a drag is in progress. -/
theorem jmSync_active (s : JointMarkerState) (ha : s.active = true) :
    JointMarker.EnvironmentSync s =
      Except.ok ({ s with forceUpdate := false, created := true },
        JointMarker.syncCalls s, false) := by
  unfold JointMarker.EnvironmentSync
  rw [ha]
  rfl

/-- `JointMarker.EnvironmentSync` while idle on a live joint. -/
theorem jmSync_idle (s : JointMarkerState) (j : Joint)
    (ha : s.active = false) (hj : s.joint = some j) :
    JointMarker.EnvironmentSync s =
      Except.ok
        ({ s with
             forceUpdate := false
             created := true
             jointInitial := j.value
             jointDelta := 0 },
         JointMarker.syncCalls s, false) := by
  unfold JointMarker.EnvironmentSync
  rw [ha, hj]
  rfl

/-- `JointMarker.EnvironmentSync` while idle on an expired joint crashes. -/
theorem jmSync_expired (s : JointMarkerState)
    (ha : s.active = false) (hj : s.joint = none) :
    JointMarker.EnvironmentSync s = Except.error RuntimeError.nullDeref := by
  unfold JointMarker.EnvironmentSync
  rw [ha, hj]
  rfl

/-- Any single event other than a mouse-up feedback keeps a dragging
marker dragging and leaves `joint_pose_` untouched. -/
theorem step_preserves_pose_while_active (ext : Ext) (s s1 : JointMarkerState)
    (e : JMEvent) (ha : s.active = true)
    (hne : e ≠ JMEvent.feedbackEv FeedbackEvent.mouseUp)
    (hstep : JointMarker.step ext s e = some s1) :
    s1.active = true ∧ s1.jointPose = s.jointPose := by
  cases e with
  | sync =>
    have h2 : JointMarker.step ext s JMEvent.sync =
        some { s with forceUpdate := false, created := true } := by
      unfold JointMarker.step
      rw [jmSync_active s ha]
    rw [h2] at hstep
    have h3 := Option.some.inj hstep
    subst h3
    exact ⟨ha, rfl⟩
  | setPoseEv p =>
    have hsp : JointMarker.set_pose s p = s := by
      unfold JointMarker.set_pose
      rw [ha]
      simp
    have h2 : JointMarker.step ext s (JMEvent.setPoseEv p) = some s := by
      rw [show JointMarker.step ext s (JMEvent.setPoseEv p) =
          some (JointMarker.set_pose s p) from rfl, hsp]
    rw [h2] at hstep
    have h3 := Option.some.inj hstep
    subst h3
    exact ⟨ha, rfl⟩
  | feedbackEv f =>
    cases f with
    | mouseDown =>
      have h2 : (some (JointMarker.JointCallback ext s FeedbackEvent.mouseDown) :
          Option JointMarkerState) = some s1 := hstep
      have h3 := Option.some.inj h2
      subst h3
      exact ⟨rfl, rfl⟩
    | mouseUp => exact absurd rfl hne
    | poseUpdate p =>
      have h2 : (some (JointMarker.JointCallback ext s (FeedbackEvent.poseUpdate p)) :
          Option JointMarkerState) = some s1 := hstep
      have h3 := Option.some.inj h2
      subst h3
      exact ⟨ha, rfl⟩

/-- Along any event trace containing no mouse-up, a dragging marker's
`joint_pose_` never changes. -/
theorem run_preserves_pose_while_active (ext : Ext) :
    ∀ (evs : List JMEvent) (s : JointMarkerState),
      s.active = true →
      (∀ e ∈ evs, e ≠ JMEvent.feedbackEv FeedbackEvent.mouseUp) →
      ∀ s1, JointMarker.run ext s evs = some s1 → s1.jointPose = s.jointPose
  | [], s, _, _, s1, h => by
      have h2 : some s = some s1 := h
      rw [← Option.some.inj h2]
  | e :: rest, s, ha, hno, s1, h => by
      cases hstep : JointMarker.step ext s e with
      | none =>
        have h2 : (none : Option JointMarkerState) = some s1 := by
          rw [show JointMarker.run ext s (e :: rest) =
              (match JointMarker.step ext s e with
               | none => none
               | some t => JointMarker.run ext t rest) from rfl, hstep] at h
          exact h
        cases h2
      | some t =>
        have h2 : JointMarker.run ext t rest = some s1 := by
          rw [show JointMarker.run ext s (e :: rest) =
              (match JointMarker.step ext s e with
               | none => none
               | some t => JointMarker.run ext t rest) from rfl, hstep] at h
          exact h
        obtain ⟨hact, hpose⟩ := step_preserves_pose_while_active ext s t e ha
          (hno e (List.mem_cons_self e rest)) hstep
        have htail := run_preserves_pose_while_active ext rest t hact
          (fun x hx => hno x (List.mem_cons_of_mem e hx)) s1 h2
        rw [htail, hpose]

/-! The claims. -/

/-- Claim C1: the claim says every `EnvironmentSync` tick checks the weak
reference for liveness before dereferencing and skips the tick when it has
expired.  The code never checks: `LinkMarker::EnvironmentSync`
dereferences `link_.lock()` unconditionally, and
`JointMarker::EnvironmentSync` dereferences `joint()` whenever no drag is
in progress — on an expired reference both crash with a null dereference
instead of skipping. -/
theorem c1_expired_reference_dereferenced :
    lmExpiredC.link = none ∧
    LinkMarker.EnvironmentSync lmExpiredC = Except.error RuntimeError.nullDeref ∧
    jmExpiredC.joint = none ∧
    jmExpiredC.active = false ∧
    JointMarker.EnvironmentSync jmExpiredC = Except.error RuntimeError.nullDeref :=
  ⟨rfl, rfl, rfl, rfl, rfl⟩

/-- Claim C2: if between two consecutive `EnvironmentSync` calls no
geometry is added to or removed from the link and no visibility flag
changes (the link value is the same at both calls), the second call issues
only a `setPose` with the link's transform and performs no recreation. -/
theorem c2_unchanged_sync_pose_only (s s1 : LinkMarkerState) (L : Link)
    (c : List ServiceCall)
    (hnd : (L.geometries.map Geometry.gid).Nodup)
    (hL : s.link = some L)
    (h1 : LinkMarker.EnvironmentSync s = Except.ok (s1, c)) :
    LinkMarker.EnvironmentSync s1 =
      Except.ok (s1, [ServiceCall.setPose s1.markerName L.transform]) := by
  obtain ⟨hlink, hinv⟩ := sync_establishes_invariant s s1 L c hnd hL h1
  have hdet : LinkMarker.detectChanged s1.geometryMarkers L.geometries = false :=
    detectChanged_eq_false _ _ hinv
  rw [environmentSync_some s1 L hlink, hdet]
  simp

/-- Witness for C2 at a concrete one-geometry link. -/
theorem c2_witness :
    ((linkC.geometries.map Geometry.gid).Nodup ∧
      lmC.link = some linkC ∧
      LinkMarker.EnvironmentSync lmC =
        Except.ok (lmC, [ServiceCall.setPose lmC.markerName linkC.transform])) ∧
    LinkMarker.EnvironmentSync lmC =
      Except.ok (lmC, [ServiceCall.setPose lmC.markerName linkC.transform]) :=
  ⟨⟨by decide, rfl, rfl⟩,
   c2_unchanged_sync_pose_only lmC lmC linkC
     [ServiceCall.setPose lmC.markerName linkC.transform] (by decide) rfl rfl⟩

/-- Claim C3: toggling exactly one geometry's visibility between two syncs
makes the second sync perform a full recreation (`CreateGeometry` followed
by `insert`), after which the number of primitives equals the number of
currently visible geometries with non-empty renderable content. -/
theorem c3_toggle_forces_recreation (s s1 : LinkMarkerState) (L L2 : Link)
    (s2 : LinkMarkerState) (c : List ServiceCall) (i : Nat)
    (hi : i < L.geometries.length)
    (hnd : (L.geometries.map Geometry.gid).Nodup)
    (hL : s.link = some L)
    (h1 : LinkMarker.EnvironmentSync s = Except.ok (s1, c))
    (hL2 : L2 = { L with
        geometries := L.geometries.set i (toggleVis (L.geometries.get ⟨i, hi⟩)) })
    (hs2 : s2 = { s1 with link := some L2 }) :
    ∃ s3, LinkMarker.EnvironmentSync s2 =
        Except.ok (s3, [ServiceCall.insert s2.markerName]) ∧
      s3.markers.length =
        (L2.geometries.filter
          (fun geom => geom.isVisible && hasRenderableContent geom)).length := by
  obtain ⟨hlink, hinv⟩ := sync_establishes_invariant s s1 L c hnd hL h1
  have hdet : LinkMarker.detectChanged s2.geometryMarkers L2.geometries = true := by
    subst hs2
    subst hL2
    exact detectChanged_set_toggle s1.geometryMarkers L.geometries i hi hinv
  have hlink2 : s2.link = some L2 := by
    subst hs2
    rfl
  refine ⟨{ s2 with
      markers := (LinkMarker.CreateGeometry s2.isGhost L2.geometries).1
      geometryMarkers := (LinkMarker.CreateGeometry s2.isGhost L2.geometries).2 },
    ?_, ?_⟩
  · rw [environmentSync_some s2 L2 hlink2, if_pos hdet]
  · exact createGeometry_fst_length s2.isGhost L2.geometries

/-- Witness for C3 at a concrete two-geometry link whose first geometry is
hidden between the two syncs. -/
theorem c3_witness :
    (0 < linkC3.geometries.length ∧
      (linkC3.geometries.map Geometry.gid).Nodup ∧
      lmC3.link = some linkC3 ∧
      LinkMarker.EnvironmentSync lmC3 =
        Except.ok (lmC3, [ServiceCall.setPose lmC3.markerName linkC3.transform])) ∧
    (∃ s3, LinkMarker.EnvironmentSync lmC3t =
        Except.ok (s3, [ServiceCall.insert lmC3t.markerName]) ∧
      s3.markers.length =
        (linkC3t.geometries.filter
          (fun geom => geom.isVisible && hasRenderableContent geom)).length) :=
  ⟨⟨by decide, by decide, rfl, rfl⟩,
   c3_toggle_forces_recreation lmC3 lmC3 linkC3 linkC3t lmC3t
     [ServiceCall.setPose lmC3.markerName linkC3.transform] 0 (by decide) (by decide)
     rfl rfl (by decide) rfl⟩

/-- Counterexample to C4: a link whose only geometry is hidden.  After
recreation the map is empty — the hidden geometry occupies no sentinel
slot, so the map's key set does not equal the link's geometry set. -/
theorem c4_counterexample :
    geomHiddenC.isVisible = false ∧
    (LinkMarker.CreateGeometry false [geomHiddenC]).2 = [] ∧
    GeometryMap.find geomHiddenC.gid
      (LinkMarker.CreateGeometry false [geomHiddenC]).2 = none :=
  ⟨rfl, rfl, rfl⟩

/-- Claim C4 as amended: after every full recreation the mapping holds
exactly the link's currently visible geometries, in order — each visible
geometry maps to its primitive when conversion produces one and to the
NULL sentinel otherwise; hidden geometries occupy no entry at all. -/
theorem c4_amended_mapping (b : Bool) (geoms : List Geometry) :
    (LinkMarker.CreateGeometry b geoms).2 =
      geoms.filterMap (fun geom =>
        if geom.isVisible then some (geom.gid, LinkMarker.CreateGeometryOne b geom)
        else none) :=
  createGeometry_snd_spec b geoms

/-- Claim C5: constructing a `JointMarker` on a static (or otherwise
unsupported) joint indeed performs no remote registration, but
`EnvironmentSync` on that object is NOT a no-op: `force_update_` was left
`true`, so the first sync inserts the never-configured `marker_` (whose
name is the empty string) and every sync issues a `setPose` and refreshes
the angle state. -/
theorem c5_inert_joint_sync_not_noop :
    (JointMarker.construct extC jointStaticC).2 = [] ∧
    JointMarker.EnvironmentSync (JointMarker.construct extC jointStaticC).1 =
      Except.ok
        ({ (JointMarker.construct extC jointStaticC).1 with
             forceUpdate := false
             created := true },
         [ServiceCall.insert "",
          ServiceCall.setPose "" (JointMarker.GetJointPose extC jointStaticC)],
         false) :=
  ⟨rfl, rfl⟩

/-- Claim C6: while idle, `angle()` equals the live joint value right after
a sync (delta reset, initial refreshed); while dragging, a sync leaves
`angle()` unchanged and only pose-update feedback (not mouse down/up)
changes it. -/
theorem c6_angle_invariant (ext : Ext) (s s1 : JointMarkerState) (j : Joint)
    (c : List ServiceCall) (r : Bool)
    (hsync : JointMarker.EnvironmentSync s = Except.ok (s1, c, r)) :
    (s.active = false → s.joint = some j → JointMarker.angle s1 = j.value) ∧
    (s.active = true → JointMarker.angle s1 = JointMarker.angle s) ∧
    (∀ f : FeedbackEvent, f = FeedbackEvent.mouseDown ∨ f = FeedbackEvent.mouseUp →
      JointMarker.angle (JointMarker.JointCallback ext s f) = JointMarker.angle s) := by
  refine ⟨?_, ?_, ?_⟩
  · intro ha hj
    rw [jmSync_idle s j ha hj] at hsync
    simp only [Except.ok.injEq, Prod.mk.injEq] at hsync
    obtain ⟨hs1, -⟩ := hsync
    subst hs1
    show j.value + 0 = j.value
    exact add_zero j.value
  · intro ha
    rw [jmSync_active s ha] at hsync
    simp only [Except.ok.injEq, Prod.mk.injEq] at hsync
    obtain ⟨hs1, -⟩ := hsync
    subst hs1
    rfl
  · intro f hf
    rcases hf with hf | hf <;> subst hf <;> rfl

/-- Witness for C6 at a concrete idle marker on a live joint. -/
theorem c6_witness :
    (JointMarker.EnvironmentSync jmIdleC =
      Except.ok (jmIdleC1, jmIdleCalls, false)) ∧
    ((jmIdleC.active = false → jmIdleC.joint = some jointC →
        JointMarker.angle jmIdleC1 = jointC.value) ∧
      (jmIdleC.active = true → JointMarker.angle jmIdleC1 = JointMarker.angle jmIdleC) ∧
      (∀ f : FeedbackEvent, f = FeedbackEvent.mouseDown ∨ f = FeedbackEvent.mouseUp →
        JointMarker.angle (JointMarker.JointCallback extC jmIdleC f) =
          JointMarker.angle jmIdleC)) :=
  ⟨rfl, c6_angle_invariant extC jmIdleC jmIdleC1 jointC jmIdleCalls false rfl⟩

/-- Claim C7: between drag-start and drag-end, `basePose` (`joint_pose_`)
never changes: `set_pose` is a no-op while `isActive`, and along any trace
of sync ticks, `set_pose` calls and non-mouse-up feedback the pose is
preserved. -/
theorem c7_basePose_frozen_while_dragging (ext : Ext) (s : JointMarkerState)
    (evs : List JMEvent) (p : Transform)
    (ha : s.active = true)
    (hnoUp : ∀ e ∈ evs, e ≠ JMEvent.feedbackEv FeedbackEvent.mouseUp) :
    JointMarker.set_pose s p = s ∧
    ∀ s1, JointMarker.run ext s evs = some s1 → s1.jointPose = s.jointPose := by
  constructor
  · unfold JointMarker.set_pose
    rw [ha]
    simp
  · exact run_preserves_pose_while_active ext evs s ha hnoUp

/-- Witness for C7 at a concrete dragging marker and a concrete trace. -/
theorem c7_witness :
    (jmActiveC.active = true ∧
      (∀ e ∈ evsC, e ≠ JMEvent.feedbackEv FeedbackEvent.mouseUp)) ∧
    (JointMarker.set_pose jmActiveC pC = jmActiveC ∧
      ∀ s1, JointMarker.run extC jmActiveC evsC = some s1 →
        s1.jointPose = jmActiveC.jointPose) :=
  ⟨⟨rfl, by decide⟩,
   c7_basePose_frozen_while_dragging extC jmActiveC evsC pC rfl (by decide)⟩

/-- Counterexample to C8: on a state with no pending geometry change,
switching the render mode from visual to collision does NOT force a
recreation — the next sync still takes the pose-update path. -/
theorem c8_counterexample :
    lmC.renderMode = RenderMode.kVisual ∧
    (LinkMarker.SetRenderMode lmC RenderMode.kCollision).renderMode =
      RenderMode.kCollision ∧
    LinkMarker.EnvironmentSync (LinkMarker.SetRenderMode lmC RenderMode.kCollision) =
      Except.ok (LinkMarker.SetRenderMode lmC RenderMode.kCollision,
        [ServiceCall.setPose lmC.markerName linkC.transform]) :=
  ⟨rfl, rfl, rfl⟩

/-- Claim C8 as amended: `SetRenderMode` records the requested mode but has
no further effect — the next `EnvironmentSync` behaves exactly as it would
have without the call (same service calls, same markers and map), because
change detection considers only visibility/membership and recreation draws
from the link's geometry list regardless of the stored mode. -/
theorem c8_amended_mode_inert (s : LinkMarkerState) (mode : RenderMode) :
    (LinkMarker.SetRenderMode s mode).renderMode = mode ∧
    LinkMarker.EnvironmentSync (LinkMarker.SetRenderMode s mode) =
      (LinkMarker.EnvironmentSync s).map
        (fun r => ({ r.1 with renderMode := mode }, r.2)) := by
  refine ⟨rfl, ?_⟩
  cases hL : s.link with
  | none =>
    have h1 : LinkMarker.EnvironmentSync (LinkMarker.SetRenderMode s mode) =
        Except.error RuntimeError.nullDeref := by
      unfold LinkMarker.EnvironmentSync LinkMarker.SetRenderMode
      rw [show ({ s with renderMode := mode } : LinkMarkerState).link = s.link from rfl,
        hL]
    have h2 : LinkMarker.EnvironmentSync s = Except.error RuntimeError.nullDeref := by
      unfold LinkMarker.EnvironmentSync
      rw [hL]
    rw [h1, h2]
    rfl
  | some L =>
    have hL2 : (LinkMarker.SetRenderMode s mode).link = some L := hL
    rw [environmentSync_some (LinkMarker.SetRenderMode s mode) L hL2,
      environmentSync_some s L hL]
    by_cases hdet : LinkMarker.detectChanged s.geometryMarkers L.geometries = true
    · have hdet2 : LinkMarker.detectChanged
          (LinkMarker.SetRenderMode s mode).geometryMarkers L.geometries = true := hdet
      rw [if_pos hdet2, if_pos hdet]
      rfl
    · have hdet2 : ¬LinkMarker.detectChanged
          (LinkMarker.SetRenderMode s mode).geometryMarkers L.geometries = true := hdet
      rw [if_neg hdet2, if_neg hdet]
      rfl

/-- Claim C9: the claim says every body, every link and every geometry is
processed each tick.  The code's loops all end after their first iteration
via unconditional `break` statements (and the link loop indexes `links` by
the body index `i`): on a two-body environment with eight geometries, only
the first geometry of the first link of the first body produces a
marker. -/
theorem c9_only_first_element_processed :
    SuperViewer.EnvironmentSync extC bodiesC9 =
      Except.ok [SuperViewer.makeMarkerMsg extC linkC9a geomBoxC] ∧
    totalGeometryCount bodiesC9 = 8 :=
  ⟨rfl, rfl⟩

/-- Claim C10: whenever `JointMarker::EnvironmentSync` returns, it returns
`false` and has set `created_` to `true` — the flag is never reflected in
the return value, so a caller can never observe `true`. -/
theorem c10_sync_returns_false (s s1 : JointMarkerState) (c : List ServiceCall)
    (r : Bool)
    (h : JointMarker.EnvironmentSync s = Except.ok (s1, c, r)) :
    r = false ∧ s1.created = true := by
  by_cases ha : s.active = true
  · rw [jmSync_active s ha] at h
    simp only [Except.ok.injEq, Prod.mk.injEq] at h
    obtain ⟨hs1, -, hr⟩ := h
    subst hs1
    exact ⟨hr.symm, rfl⟩
  · have ha2 : s.active = false := Bool.eq_false_iff.mpr ha
    cases hj : s.joint with
    | none =>
      rw [jmSync_expired s ha2 hj] at h
      cases h
    | some j =>
      rw [jmSync_idle s j ha2 hj] at h
      simp only [Except.ok.injEq, Prod.mk.injEq] at h
      obtain ⟨hs1, -, hr⟩ := h
      subst hs1
      exact ⟨hr.symm, rfl⟩

/-- Witness for C10 at a concrete first sync of a live joint marker. -/
theorem c10_witness :
    (JointMarker.EnvironmentSync jmIdleC =
      Except.ok (jmIdleC1, jmIdleCalls, false)) ∧
    (false = false ∧ jmIdleC1.created = true) :=
  ⟨rfl, c10_sync_returns_false jmIdleC jmIdleC1 jmIdleCalls false rfl⟩

end OrRviz
